import Mathlib

/-!
Shallow embedding of `src/v2/blobs.rs` from dkregistry-rs.

The file models the three public operations of the blob module — `has_blob`,
`get_blob` and `get_blob_with_progress` — as pure Lean functions over an
explicit fake transport, together with an effect record (requests issued,
body reads, progress notifications, verification attempts) so that the
no-network / body-never-read / notification-count claims are statable.

Bytes are `List Nat`, HTTP statuses are `Nat`.  The hash function is a
parameter `H : String → List Nat → String` (algorithm name and bytes to a
lowercase hex string), since the concrete hash primitive lives outside the
analysed source.
-/

set_option autoImplicit false

namespace Blobs

/-- The error taxonomy of the module, following `crate::errors::Error` as it
is used by `blobs.rs` (plus the digest errors named by the spec for the
out-of-file `ContentDigest` type). -/
inductive Error where
  | InvalidDigestFormat
  | Transport
  | MissingHeader (h : String)
  | DownloadFailed
  | Client (status : Nat) (len : Nat) (body : List Nat)
  | UnexpectedHttpStatus (status : Nat)
  | VerificationFailed
  deriving DecidableEq, Repr

/-- Outcome of a call: a value, a returned error, or a Rust panic
(`Sender::send(..).unwrap()` on a dropped receiver unwinds). -/
inductive Outcome where
  | ok (bytes : List Nat)
  | err (e : Error)
  | panicked
  deriving DecidableEq, Repr

def Outcome.isOk : Outcome → Bool
  | .ok _ => true
  | _ => false

/-- One fixed response of the fake transport: the status line plus how the
body can be consumed, either buffered (`body`, the result of
`res.bytes().await`) or as a stream of chunk read results (`chunks`, the
items produced by `res.bytes_stream()`). -/
structure Response where
  status : Nat
  contentLength : Option Nat
  body : Except Unit (List Nat)
  chunks : List (Except Unit (List Nat))
  deriving Repr

/-- Behaviour of the fake transport for the single request a call issues:
either the send itself fails (connection refused) or a response arrives. -/
inductive Transport where
  | failure
  | response (r : Response)
  deriving Repr

/-- Observable effects of one call. `requests` counts network sends,
`bodyReads` counts body-consumption operations (the buffered `bytes()` call,
or each chunk pulled from the stream), `notes` is the exact sequence of
values pushed through the progress sender, `verifies` counts digest
verification attempts, and `released` records that the sender side of the
observer channel has been dropped by the time the call returns (in Rust
this holds on every return and unwind path by ownership). -/
structure Effects where
  requests : Nat
  bodyReads : Nat
  notes : List Nat
  verifies : Nat
  released : Bool
  deriving DecidableEq, Repr

/-- `StatusCode::is_success`: the 2xx range. -/
def is_success (s : Nat) : Bool := 200 ≤ s && s ≤ 299

/-- `StatusCode::is_client_error`: the 4xx range. -/
def is_client_error (s : Nat) : Bool := 400 ≤ s && s ≤ 499

/-- Split a character list at the first `:`, returning the parts before and
after it, or `none` when no separator occurs. -/
def splitFirstColon : List Char → Option (List Char × List Char)
  | [] => none
  | c :: rest =>
    if c = ':' then some ([], rest)
    else
      match splitFirstColon rest with
      | some (a, b) => some (c :: a, b)
      | none => none

/-- Expected hex length for each supported algorithm name. -/
def algoHexLen : String → Option Nat
  | "sha256" => some 64
  | "sha512" => some 128
  | _ => none

def isHexChar (c : Char) : Bool :=
  ('0' ≤ c && c ≤ '9') || ('a' ≤ c && c ≤ 'f') || ('A' ≤ c && c ≤ 'F')

/-- Modelled from the spec: `ContentDigest` lives outside the analysed source
file (`crate::v2`), so its shape follows §3/§4.1 of the spec: an algorithm
tag and a lowercase hex value, with the serialized form `algorithm:hex`. -/
structure ContentDigest where
  algorithm : String
  hex : String
  deriving DecidableEq, Repr

/-- Modelled from the spec: `ContentDigest::try_new` is outside the analysed
source.  Per §4.1, it splits the string on the first `:`, checks the
algorithm against the supported set, checks the hex length against the
algorithm output size and the charset against `[0-9a-f]` case-insensitively,
normalizing to lowercase; any failure is `InvalidDigestFormat`. -/
def try_new (s : String) : Except Error ContentDigest :=
  match splitFirstColon s.toList with
  | none => .error .InvalidDigestFormat
  | some (algChars, hexChars) =>
    match algoHexLen (String.mk algChars) with
    | none => .error .InvalidDigestFormat
    | some n =>
      if hexChars.length == n && hexChars.all isHexChar then
        .ok { algorithm := String.mk algChars,
              hex := String.mk (hexChars.map Char.toLower) }
      else .error .InvalidDigestFormat

/-- Modelled from the spec: `ContentDigest::try_verify` is outside the
analysed source.  Per §4.1, it hashes the bytes with the named algorithm and
compares the hex encoding with the stored value; mismatch is
`VerificationFailed`. -/
def ContentDigest.try_verify (H : String → List Nat → String)
    (d : ContentDigest) (bytes : List Nat) : Except Error Unit :=
  if H d.algorithm bytes == d.hex then .ok () else .error .VerificationFailed

/-- `Client::has_blob`: HEAD the blob URL; `StatusCode::OK` maps to `true`,
any other status to `false`; a transport failure propagates as an error. -/
def has_blob (t : Transport) : Except Error Bool × Effects :=
  match t with
  | .failure => (.error .Transport, ⟨1, 0, [], 0, true⟩)
  | .response res =>
    if res.status == 200 then (.ok true, ⟨1, 0, [], 0, true⟩)
    else (.ok false, ⟨1, 0, [], 0, true⟩)

/-- `Client::get_blob`: parse the digest, send a GET, gate on
`!status.is_success()` before reading the body (the `|| is_client_error`
disjunct is commented out in the source), read the full body, classify
(the client-error and unexpected branches of the classifier are kept even
though the gate makes them dead), then verify the digest. -/
def get_blob (H : String → List Nat → String) (t : Transport)
    (digestStr : String) : Outcome × Effects :=
  match try_new digestStr with
  | .error e => (.err e, ⟨0, 0, [], 0, true⟩)
  | .ok digest =>
    match t with
    | .failure => (.err .Transport, ⟨1, 0, [], 0, true⟩)
    | .response res =>
      if !(is_success res.status) then
        (.err (.UnexpectedHttpStatus res.status), ⟨1, 0, [], 0, true⟩)
      else
        match res.body with
        | .error _ => (.err .Transport, ⟨1, 1, [], 0, true⟩)
        | .ok body_vec =>
          match (if is_success res.status then Except.ok body_vec
                 else if is_client_error res.status then
                   Except.error (Error.Client res.status body_vec.length body_vec)
                 else Except.error (Error.UnexpectedHttpStatus res.status) :
                   Except Error (List Nat)) with
          | .error e => (.err e, ⟨1, 1, [], 0, true⟩)
          | .ok b =>
            match digest.try_verify H b with
            | .error e => (.err e, ⟨1, 1, [], 1, true⟩)
            | .ok _ => (.ok b, ⟨1, 1, [], 1, true⟩)

/-- State threaded through the chunk-consumption loop of
`get_blob_with_progress`: the clamped running counter `downloaded`, the
accumulated `body_vec`, the notifications sent so far and the number of
stream items pulled. -/
structure StreamState where
  downloaded : Nat
  body : List Nat
  notes : List Nat
  reads : Nat
  deriving DecidableEq, Repr

/-- How the chunk loop ends: the stream is exhausted, a chunk read failed
(`DownloadFailed` path), or `send(..).unwrap()` panicked because the
receiving side was dropped. -/
inductive StreamOut where
  | done (st : StreamState)
  | failed (st : StreamState)
  | panicked (st : StreamState)
  deriving DecidableEq, Repr

/-- The `while let Some(item) = stream.next().await` loop of
`get_blob_with_progress`: per chunk, clamp the running total to
`total_size`, send it through the sender when one is present (`sp`) —
panicking when the receiver is gone (`ra = false`) — and append the chunk
to the accumulation buffer. -/
def streamLoop (total : Nat) (sp ra : Bool) :
    List (Except Unit (List Nat)) → StreamState → StreamOut
  | [], st => .done st
  | item :: rest, st =>
    match item with
    | .error _ => .failed { st with reads := st.reads + 1 }
    | .ok chunk =>
      let newDl := min (st.downloaded + chunk.length) total
      if sp then
        if ra then
          streamLoop total sp ra rest
            ⟨newDl, st.body ++ chunk, st.notes ++ [newDl], st.reads + 1⟩
        else .panicked ⟨newDl, st.body, st.notes, st.reads + 1⟩
      else
        streamLoop total sp ra rest
          ⟨newDl, st.body ++ chunk, st.notes, st.reads + 1⟩

/-- `Client::get_blob_with_progress`: parse the digest, send a GET, gate on
`!status.is_success()`, require a `content_length` (else
`MissingHeader("ContentLength")`), consume the chunk stream while reporting
progress, classify the assembled body (dead non-success branches kept),
then verify the digest.  `sp` says whether a sender was passed
(`sender.is_some()`), `ra` whether its receiver is still alive. -/
def get_blob_with_progress (H : String → List Nat → String) (t : Transport)
    (digestStr : String) (sp ra : Bool) : Outcome × Effects :=
  match try_new digestStr with
  | .error e => (.err e, ⟨0, 0, [], 0, true⟩)
  | .ok digest =>
    match t with
    | .failure => (.err .Transport, ⟨1, 0, [], 0, true⟩)
    | .response res =>
      if !(is_success res.status) then
        (.err (.UnexpectedHttpStatus res.status), ⟨1, 0, [], 0, true⟩)
      else
        match res.contentLength with
        | none =>
          (.err (.MissingHeader "ContentLength"), ⟨1, 0, [], 0, true⟩)
        | some total_size =>
          match streamLoop total_size sp ra res.chunks ⟨0, [], [], 0⟩ with
          | .failed st =>
            (.err .DownloadFailed, ⟨1, st.reads, st.notes, 0, true⟩)
          | .panicked st =>
            (.panicked, ⟨1, st.reads, st.notes, 0, true⟩)
          | .done st =>
            match (if is_success res.status then Except.ok st.body
                   else if is_client_error res.status then
                     Except.error (Error.Client res.status st.body.length st.body)
                   else Except.error (Error.UnexpectedHttpStatus res.status) :
                     Except Error (List Nat)) with
            | .error e => (.err e, ⟨1, st.reads, st.notes, 0, true⟩)
            | .ok b =>
              match digest.try_verify H b with
              | .error e => (.err e, ⟨1, st.reads, st.notes, 1, true⟩)
              | .ok _ => (.ok b, ⟨1, st.reads, st.notes, 1, true⟩)

instance {ε α : Type} [DecidableEq ε] [DecidableEq α] :
    DecidableEq (Except ε α) := fun a b =>
  match a, b with
  | .error x, .error y =>
    if h : x = y then .isTrue (congrArg Except.error h)
    else .isFalse (fun hc => h (Except.error.inj hc))
  | .error _, .ok _ => .isFalse (fun hc => Except.noConfusion hc)
  | .ok _, .error _ => .isFalse (fun hc => Except.noConfusion hc)
  | .ok x, .ok y =>
    if h : x = y then .isTrue (congrArg Except.ok h)
    else .isFalse (fun hc => h (Except.ok.inj hc))

/-! Concrete fixtures used by witnesses and counterexamples. -/

/-- A 64-character lowercase hex value. -/
def hex64 : String := String.mk (List.replicate 64 'a')

/-- A digest string that parses: `sha256:` followed by 64 hex chars. -/
def goodDigest : String := "sha256:" ++ hex64

/-- A hash function for fixtures: everything hashes to `hex64`. -/
def Hconst : String → List Nat → String := fun _ _ => hex64

/-- The ASCII bytes of `"not found"`. -/
def notFoundBody : List Nat := [110, 111, 116, 32, 102, 111, 117, 110, 100]

/-- The sequence of clamped running totals sent through the sender when the
stream delivers the chunks `cs` without error, starting from counter `dl`:
each entry is `min (previous + chunk.length) total`. -/
def clampedTotals (total : Nat) : Nat → List (List Nat) → List Nat
  | _, [] => []
  | dl, c :: rest =>
    min (dl + c.length) total ::
      clampedTotals total (min (dl + c.length) total) rest

/-- Final value of the clamped counter after consuming the chunks `cs`. -/
def clampFinal (total : Nat) : Nat → List (List Nat) → Nat
  | dl, [] => dl
  | dl, c :: rest => clampFinal total (min (dl + c.length) total) rest

/-- A hash function for fixtures that never matches `hex64`. -/
def Hbad : String → List Nat → String := fun _ _ => ""

/-- A 200 response with buffered body `[1, 2, 3]`. -/
def okResp : Response := ⟨200, some 3, .ok [1, 2, 3], [.ok [1, 2, 3]]⟩

/-- A 200 response with no declared content length and one good chunk. -/
def noLenResp : Response := ⟨200, none, .ok [], [.ok [1, 2, 3]]⟩

/-- A 200 response delivering a single chunk. -/
def oneChunkResp : Response := ⟨200, some 3, .ok [], [.ok [1, 2, 3]]⟩

/-- A 200 response whose stream fails on the third item. -/
def midErrResp : Response :=
  ⟨200, some 35, .ok [], [.ok [1], .ok [2], .error ()]⟩

/-- Chunks of sizes 10, 20 and 5. -/
def chunks3 : List (List Nat) :=
  [List.replicate 10 7, List.replicate 20 8, List.replicate 5 9]

/-- A 200 response delivering `chunks3` (35 bytes, declared length 35). -/
def threeChunkResp : Response := ⟨200, some 35, .ok [], chunks3.map .ok⟩

/-- Chunks totalling 8 bytes. -/
def overChunks : List (List Nat) := [[1, 2, 3, 4], [5, 6, 7, 8]]

/-- A 200 response declaring 5 bytes but delivering 8. -/
def overLenResp : Response := ⟨200, some 5, .ok [], overChunks.map .ok⟩

theorem try_new_goodDigest : try_new goodDigest = .ok ⟨"sha256", hex64⟩ := by
  decide

/-- `try_new` fails only with `InvalidDigestFormat`. -/
theorem try_new_error_eq (s : String) (e : Error)
    (h : try_new s = .error e) : e = .InvalidDigestFormat := by
  unfold try_new at h
  repeat' split at h
  all_goals
    first
      | exact (Except.error.inj h).symm
      | exact Except.noConfusion h

/-- C1: the spec claims a 4xx response yields `Err(Rejected\x7bstatus, length,
body\x7d)` with the body preserved, and in particular 404 with body
`b"not found"` yields that error carrying the body.  The source gates on
`!status.is_success()` with the `|| status.is_client_error()` disjunct
commented out, so a 404 returns `UnexpectedHttpStatus(404)` before the body
is ever read and the `Error::Client` branch is dead code, contradicting the
comment `Let client errors through to populate them with the body` kept in
the source.  This theorem evaluates the model at the failing input. -/
theorem get_blob_client_error_bug :
    get_blob Hconst (.response ⟨404, none, .ok notFoundBody, []⟩) goodDigest
      = (.err (.UnexpectedHttpStatus 404), ⟨1, 0, [], 0, true⟩) := by
  decide

/-- C5: with a parsed digest and a response whose status is neither in the
success range nor in the client-error range, both fetch variants return
`UnexpectedHttpStatus(status)` with zero body reads and zero verification
attempts: the body is never read on that path. -/
theorem unexpected_status_pre_body (H : String → List Nat → String)
    (t : Transport) (s : String) (d : ContentDigest) (res : Response)
    (sp ra : Bool) (hd : try_new s = .ok d) (ht : t = .response res)
    (hs : is_success res.status = false)
    (hc : is_client_error res.status = false) :
    get_blob H t s
        = (.err (.UnexpectedHttpStatus res.status), ⟨1, 0, [], 0, true⟩) ∧
    get_blob_with_progress H t s sp ra
        = (.err (.UnexpectedHttpStatus res.status), ⟨1, 0, [], 0, true⟩) := by
  subst ht
  constructor
  · unfold get_blob
    simp [hd, hs]
  · unfold get_blob_with_progress
    simp [hd, hs]

theorem unexpected_status_pre_body_witness :
    get_blob Hconst (.response ⟨500, none, .ok [], []⟩) goodDigest
        = (.err (.UnexpectedHttpStatus 500), ⟨1, 0, [], 0, true⟩) ∧
    get_blob_with_progress Hconst (.response ⟨500, none, .ok [], []⟩)
        goodDigest true true
        = (.err (.UnexpectedHttpStatus 500), ⟨1, 0, [], 0, true⟩) :=
  unexpected_status_pre_body Hconst _ goodDigest ⟨"sha256", hex64⟩
    ⟨500, none, .ok [], []⟩ true true try_new_goodDigest rfl (by decide)
    (by decide)

/-- C6: a digest string that fails to parse makes both fetch variants return
`InvalidDigestFormat` with zero requests issued (and zero body reads,
notifications and verification attempts). -/
theorem invalid_digest_no_network (H : String → List Nat → String)
    (t : Transport) (s : String) (e : Error) (sp ra : Bool)
    (h : try_new s = .error e) :
    get_blob H t s = (.err .InvalidDigestFormat, ⟨0, 0, [], 0, true⟩) ∧
    get_blob_with_progress H t s sp ra
        = (.err .InvalidDigestFormat, ⟨0, 0, [], 0, true⟩) := by
  have he := try_new_error_eq s e h
  subst he
  constructor
  · unfold get_blob
    simp [h]
  · unfold get_blob_with_progress
    simp [h]

theorem invalid_digest_no_network_witness :
    get_blob Hconst .failure "sha256"
        = (.err .InvalidDigestFormat, ⟨0, 0, [], 0, true⟩) ∧
    get_blob_with_progress Hconst .failure "sha256" true true
        = (.err .InvalidDigestFormat, ⟨0, 0, [], 0, true⟩) :=
  invalid_digest_no_network Hconst .failure "sha256" .InvalidDigestFormat
    true true (by decide)

/-- C9: `has_blob` maps a 200 probe response to `Ok(true)`, any other status
to `Ok(false)`, and a transport-level send failure propagates as an error
rather than being coerced to `false`. -/
theorem has_blob_classification (t : Transport) :
    (t = .failure → has_blob t = (.error .Transport, ⟨1, 0, [], 0, true⟩)) ∧
    (∀ res : Response, t = .response res → res.status = 200 →
      has_blob t = (.ok true, ⟨1, 0, [], 0, true⟩)) ∧
    (∀ res : Response, t = .response res → res.status ≠ 200 →
      has_blob t = (.ok false, ⟨1, 0, [], 0, true⟩)) := by
  refine ⟨fun h => ?_, fun res h h200 => ?_, fun res h h200 => ?_⟩
  · subst h; rfl
  · subst h; simp [has_blob, h200]
  · subst h; simp [has_blob, h200]

theorem has_blob_classification_witness :
    has_blob .failure = (.error .Transport, ⟨1, 0, [], 0, true⟩) ∧
    has_blob (.response ⟨200, none, .ok [], []⟩)
        = (.ok true, ⟨1, 0, [], 0, true⟩) ∧
    has_blob (.response ⟨404, none, .ok [], []⟩)
        = (.ok false, ⟨1, 0, [], 0, true⟩) ∧
    has_blob (.response ⟨500, none, .ok [], []⟩)
        = (.ok false, ⟨1, 0, [], 0, true⟩) :=
  ⟨(has_blob_classification .failure).1 rfl,
   (has_blob_classification _).2.1 _ rfl rfl,
   (has_blob_classification _).2.2 _ rfl (by decide),
   (has_blob_classification _).2.2 _ rfl (by decide)⟩

/-- Running the chunk loop with sender present and receiver alive over an
all-good stream: it completes with the concatenated body, the clamped
running totals as notifications, and one read per chunk. -/
theorem streamLoop_allOk (total : Nat) (cs : List (List Nat)) :
    ∀ st : StreamState,
      streamLoop total true true (cs.map .ok) st =
        .done ⟨clampFinal total st.downloaded cs, st.body ++ cs.flatten,
               st.notes ++ clampedTotals total st.downloaded cs,
               st.reads + cs.length⟩ := by
  induction cs with
  | nil => intro st; simp [streamLoop, clampFinal, clampedTotals]
  | cons c rest ih =>
    intro st
    simp only [List.map_cons, streamLoop, if_true]
    rw [ih]
    simp [clampFinal, clampedTotals, List.append_assoc]
    omega

/-- A stream whose items are some good chunks followed by a read error makes
the loop end in the `failed` state, provided no send panics on the way
(no sender, or the receiver still alive). -/
theorem streamLoop_err (total : Nat) (sp ra : Bool)
    (hok : sp = false ∨ ra = true) (good : List (List Nat))
    (rest : List (Except Unit (List Nat))) :
    ∀ st : StreamState, ∃ st2,
      streamLoop total sp ra (good.map .ok ++ .error () :: rest) st
        = .failed st2 := by
  induction good with
  | nil => intro st; exact ⟨_, rfl⟩
  | cons c g ih =>
    intro st
    rcases hok with h | h
    · subst h
      simp only [List.map_cons, List.cons_append, streamLoop, if_false]
      exact ih _
    · subst h
      simp only [List.map_cons, List.cons_append, streamLoop, if_true]
      cases sp <;> simp <;> exact ih _

/-- C3 counterexample: a 2xx response whose body trivially hashes to the
requested digest (`Hconst` hashes everything to the digest value) but which
declares no content length makes the streaming fetch fail with
`MissingHeader("ContentLength")` instead of succeeding. -/
theorem streaming_missing_length_cex :
    get_blob_with_progress Hconst (.response noLenResp) goodDigest false true
      = (.err (.MissingHeader "ContentLength"), ⟨1, 0, [], 0, true⟩) ∧
    Outcome.isOk (get_blob_with_progress Hconst (.response noLenResp)
      goodDigest false true).1 = false := by
  decide

/-- C3 amended: the streaming fetch requires a declared content length as a
hard precondition: on a 2xx response with no content length it returns
`MissingHeader("ContentLength")` before consuming any body chunk, whatever
the body would have hashed to. -/
theorem streaming_requires_content_length (H : String → List Nat → String)
    (t : Transport) (s : String) (d : ContentDigest) (res : Response)
    (sp ra : Bool) (hd : try_new s = .ok d) (ht : t = .response res)
    (hs : is_success res.status = true) (hl : res.contentLength = none) :
    get_blob_with_progress H t s sp ra
      = (.err (.MissingHeader "ContentLength"), ⟨1, 0, [], 0, true⟩) := by
  subst ht
  unfold get_blob_with_progress
  simp [hd, hs, hl]

theorem streaming_requires_content_length_witness :
    get_blob_with_progress Hconst (.response noLenResp) goodDigest true true
      = (.err (.MissingHeader "ContentLength"), ⟨1, 0, [], 0, true⟩) :=
  streaming_requires_content_length Hconst _ goodDigest ⟨"sha256", hex64⟩
    noLenResp true true try_new_goodDigest rfl (by decide) rfl

/-- C4 counterexample: the same one-chunk transport gives `Ok([1,2,3])` when
the receiver is alive but panics (`send(..).unwrap()`) when the receiving
side has been dropped — a failed notification aborts the fetch and changes
its result. -/
theorem send_failure_panics_cex :
    (get_blob_with_progress Hconst (.response oneChunkResp) goodDigest
        true false).1 = .panicked ∧
    (get_blob_with_progress Hconst (.response oneChunkResp) goodDigest
        true true).1 = .ok [1, 2, 3] := by
  decide

/-- C4 amended: with a sender attached and the receiving side dropped, the
first delivered chunk makes the fetch panic at the unwrapped `send`: no
result is returned, exactly one chunk was pulled, and no notification was
delivered. -/
theorem send_failure_aborts (H : String → List Nat → String) (t : Transport)
    (s : String) (d : ContentDigest) (res : Response) (total : Nat)
    (c : List Nat) (rest : List (Except Unit (List Nat)))
    (hd : try_new s = .ok d) (ht : t = .response res)
    (hs : is_success res.status = true)
    (hl : res.contentLength = some total) (hch : res.chunks = .ok c :: rest) :
    (get_blob_with_progress H t s true false).1 = .panicked ∧
    (get_blob_with_progress H t s true false).2.bodyReads = 1 ∧
    (get_blob_with_progress H t s true false).2.notes = [] := by
  subst ht
  unfold get_blob_with_progress
  simp [hd, hs, hl, hch, streamLoop]

theorem send_failure_aborts_witness :
    (get_blob_with_progress Hconst (.response oneChunkResp) goodDigest
        true false).1 = .panicked ∧
    (get_blob_with_progress Hconst (.response oneChunkResp) goodDigest
        true false).2.bodyReads = 1 ∧
    (get_blob_with_progress Hconst (.response oneChunkResp) goodDigest
        true false).2.notes = [] :=
  send_failure_aborts Hconst _ goodDigest ⟨"sha256", hex64⟩ oneChunkResp
    3 [1, 2, 3] [] try_new_goodDigest rfl (by decide) rfl rfl

/-- C7: a transport failure while consuming chunks (good chunks followed by
a failing read) makes the streaming fetch return `DownloadFailed`: the
error carries no partial data, digest verification is never attempted
(`verifies = 0`) and the sending side of the observer is released.  The
hypothesis `sp = false ∨ ra = true` says the failing read is actually
reached (a dropped receiver would panic at the first send instead). -/
theorem midstream_failure_download_failed (H : String → List Nat → String)
    (t : Transport) (s : String) (sp ra : Bool) (d : ContentDigest)
    (res : Response) (total : Nat) (good : List (List Nat))
    (rest : List (Except Unit (List Nat)))
    (hd : try_new s = .ok d) (ht : t = .response res)
    (hs : is_success res.status = true)
    (hl : res.contentLength = some total)
    (hch : res.chunks = good.map .ok ++ .error () :: rest)
    (hok : sp = false ∨ ra = true) :
    (get_blob_with_progress H t s sp ra).1 = .err .DownloadFailed ∧
    (get_blob_with_progress H t s sp ra).2.verifies = 0 ∧
    (get_blob_with_progress H t s sp ra).2.released = true := by
  subst ht
  obtain ⟨st2, hst⟩ := streamLoop_err total sp ra hok good rest ⟨0, [], [], 0⟩
  unfold get_blob_with_progress
  simp [hd, hs, hl, hch, hst]

theorem midstream_failure_download_failed_witness :
    (get_blob_with_progress Hconst (.response midErrResp) goodDigest
        true true).1 = .err .DownloadFailed ∧
    (get_blob_with_progress Hconst (.response midErrResp) goodDigest
        true true).2.verifies = 0 ∧
    (get_blob_with_progress Hconst (.response midErrResp) goodDigest
        true true).2.released = true :=
  midstream_failure_download_failed Hconst _ goodDigest true true
    ⟨"sha256", hex64⟩ midErrResp 35 [[1], [2]] [] try_new_goodDigest rfl
    (by decide) rfl rfl (Or.inr rfl)

/-- Every value in the clamped totals sequence is at most `total`. -/
theorem clampedTotals_le_total (total : Nat) (cs : List (List Nat)) :
    ∀ dl, ∀ v ∈ clampedTotals total dl cs, v ≤ total := by
  induction cs with
  | nil => intro dl v hv; simp [clampedTotals] at hv
  | cons c rest ih =>
    intro dl v hv
    simp only [clampedTotals, List.mem_cons] at hv
    rcases hv with h | h
    · subst h; exact Nat.min_le_right _ _
    · exact ih _ v h

/-- Starting at a counter below the clamp, the clamped totals sequence is
non-decreasing. -/
theorem clampedTotals_chain (total : Nat) (cs : List (List Nat)) :
    ∀ dl, dl ≤ total →
      List.Chain' (fun a b => a ≤ b) (dl :: clampedTotals total dl cs) := by
  induction cs with
  | nil => intro dl _; simp [clampedTotals]
  | cons c rest ih =>
    intro dl hdl
    simp only [clampedTotals]
    rw [List.chain'_cons]
    exact ⟨le_min_iff.mpr ⟨Nat.le_add_right _ _, hdl⟩,
           ih _ (Nat.min_le_right _ _)⟩

/-- One clamped total per chunk. -/
theorem clampedTotals_length (total : Nat) (cs : List (List Nat)) :
    ∀ dl, (clampedTotals total dl cs).length = cs.length := by
  induction cs with
  | nil => intro dl; rfl
  | cons c rest ih => intro dl; simp [clampedTotals, ih]

/-- Effects of a streaming fetch over an all-good stream with sender present
and receiver alive: one request, one read per chunk, the clamped totals as
notifications, one verification attempt, sender released. -/
theorem gbwp_allOk_effects (H : String → List Nat → String) (s : String)
    (d : ContentDigest) (res : Response) (total : Nat) (cs : List (List Nat))
    (hd : try_new s = .ok d) (hs : is_success res.status = true)
    (hl : res.contentLength = some total) (hch : res.chunks = cs.map .ok) :
    (get_blob_with_progress H (.response res) s true true).2 =
      ⟨1, cs.length, clampedTotals total 0 cs, 1, true⟩ := by
  unfold get_blob_with_progress
  simp only [hd, hs, hl, hch, Bool.not_true, Bool.false_eq_true, if_false]
  rw [streamLoop_allOk]
  simp only [hs, if_true]
  cases hv : ContentDigest.try_verify H d ([] ++ cs.flatten) <;> simp [hv]

/-- An `Ok` result of the buffered fetch parses the digest and carries bytes
hashing to its hex value. -/
theorem get_blob_ok_hash (H : String → List Nat → String) (t : Transport)
    (s : String) (b : List Nat) (h : (get_blob H t s).1 = .ok b) :
    ∃ d, try_new s = .ok d ∧ H d.algorithm b = d.hex := by
  unfold get_blob at h
  repeat' split at h
  all_goals simp_all [ContentDigest.try_verify]

/-- An `Ok` result of the streaming fetch parses the digest and carries
bytes hashing to its hex value. -/
theorem gbwp_ok_hash (H : String → List Nat → String) (t : Transport)
    (s : String) (sp ra : Bool) (b : List Nat)
    (h : (get_blob_with_progress H t s sp ra).1 = .ok b) :
    ∃ d, try_new s = .ok d ∧ H d.algorithm b = d.hex := by
  unfold get_blob_with_progress at h
  repeat' split at h
  all_goals simp_all [ContentDigest.try_verify]

/-- A buffered body that does not hash to the digest makes the buffered
fetch fail with `VerificationFailed`. -/
theorem get_blob_mismatch (H : String → List Nat → String) (s : String)
    (d : ContentDigest) (res : Response) (b : List Nat)
    (hd : try_new s = .ok d) (hs : is_success res.status = true)
    (hb : res.body = .ok b) (hne : H d.algorithm b ≠ d.hex) :
    (get_blob H (.response res) s).1 = .err .VerificationFailed := by
  unfold get_blob
  simp [hd, hs, hb, ContentDigest.try_verify, hne]

/-- An assembled stream body that does not hash to the digest makes the
streaming fetch fail with `VerificationFailed`. -/
theorem gbwp_mismatch (H : String → List Nat → String) (s : String)
    (sp ra : Bool) (d : ContentDigest) (res : Response) (total : Nat)
    (st : StreamState) (hd : try_new s = .ok d)
    (hs : is_success res.status = true) (hl : res.contentLength = some total)
    (hst : streamLoop total sp ra res.chunks ⟨0, [], [], 0⟩ = .done st)
    (hne : H d.algorithm st.body ≠ d.hex) :
    (get_blob_with_progress H (.response res) s sp ra).1
      = .err .VerificationFailed := by
  unfold get_blob_with_progress
  simp [hd, hs, hl, hst, ContentDigest.try_verify, hne]

/-- C2: any `Ok` result of either fetch variant carries bytes hashing to the
parsed digest's hex value under its algorithm, and whenever the assembled
body does not hash to the digest the call returns `VerificationFailed`
instead of the bytes. -/
theorem fetched_bytes_verified (H : String → List Nat → String)
    (t : Transport) (s : String) (sp ra : Bool) :
    (∀ b, (get_blob H t s).1 = .ok b →
        ∃ d, try_new s = .ok d ∧ H d.algorithm b = d.hex) ∧
    (∀ b, (get_blob_with_progress H t s sp ra).1 = .ok b →
        ∃ d, try_new s = .ok d ∧ H d.algorithm b = d.hex) ∧
    (∀ d res b, try_new s = .ok d → t = .response res →
        is_success res.status = true → res.body = .ok b →
        H d.algorithm b ≠ d.hex →
        (get_blob H t s).1 = .err .VerificationFailed) ∧
    (∀ d res total st, try_new s = .ok d → t = .response res →
        is_success res.status = true → res.contentLength = some total →
        streamLoop total sp ra res.chunks ⟨0, [], [], 0⟩ = .done st →
        H d.algorithm st.body ≠ d.hex →
        (get_blob_with_progress H t s sp ra).1
          = .err .VerificationFailed) := by
  refine ⟨fun b h => get_blob_ok_hash H t s b h,
          fun b h => gbwp_ok_hash H t s sp ra b h,
          fun d res b hd ht hs hb hne => ?_,
          fun d res total st hd ht hs hl hst hne => ?_⟩
  · subst ht; exact get_blob_mismatch H s d res b hd hs hb hne
  · subst ht; exact gbwp_mismatch H s sp ra d res total st hd hs hl hst hne

theorem fetched_bytes_verified_witness :
    (∃ d, try_new goodDigest = .ok d ∧
       Hconst d.algorithm [1, 2, 3] = d.hex) ∧
    (get_blob Hbad (.response okResp) goodDigest).1
      = .err .VerificationFailed :=
  ⟨(fetched_bytes_verified Hconst (.response okResp) goodDigest true true).1
      [1, 2, 3] (by decide),
   (fetched_bytes_verified Hbad (.response okResp) goodDigest true
      true).2.2.1 ⟨"sha256", hex64⟩ okResp [1, 2, 3] try_new_goodDigest rfl
      (by decide) rfl (by decide)⟩

/-- C8: when the transport delivers the chunks `cs` without error to a
streaming fetch with a live observer, the observer receives exactly one
notification per chunk and the returned blob is the concatenation of the
chunks in delivery order (given that it hashes to the digest). -/
theorem streaming_chunk_notifications (H : String → List Nat → String)
    (t : Transport) (s : String) (d : ContentDigest) (res : Response)
    (total : Nat) (cs : List (List Nat)) (hd : try_new s = .ok d)
    (ht : t = .response res) (hs : is_success res.status = true)
    (hl : res.contentLength = some total) (hch : res.chunks = cs.map .ok)
    (hh : H d.algorithm cs.flatten = d.hex) :
    (get_blob_with_progress H t s true true).1 = .ok cs.flatten ∧
    (get_blob_with_progress H t s true true).2.notes.length = cs.length := by
  subst ht
  constructor
  · unfold get_blob_with_progress
    simp only [hd, hs, hl, hch, Bool.not_true, Bool.false_eq_true, if_false]
    rw [streamLoop_allOk]
    simp [hs, ContentDigest.try_verify, hh]
  · rw [gbwp_allOk_effects H s d res total cs hd hs hl hch]
    exact clampedTotals_length total cs 0

theorem streaming_chunk_notifications_witness :
    ((get_blob_with_progress Hconst (.response threeChunkResp) goodDigest
        true true).1 = .ok chunks3.flatten ∧
     (get_blob_with_progress Hconst (.response threeChunkResp) goodDigest
        true true).2.notes.length = chunks3.length) ∧
    chunks3.flatten.length = 35 ∧ chunks3.length = 3 ∧
    (get_blob_with_progress Hconst (.response threeChunkResp) goodDigest
        true true).2.notes = [10, 30, 35] :=
  ⟨streaming_chunk_notifications Hconst _ goodDigest ⟨"sha256", hex64⟩
      threeChunkResp 35 chunks3 try_new_goodDigest rfl (by decide) rfl rfl
      (by decide),
   by decide, by decide, by decide⟩

/-- C10: over an error-free stream with a live observer, the sequence of
values sent through the sender is non-decreasing and every value is at most
the declared content length (the running total is clamped), while the
accumulated buffer is the full concatenation of the chunks, not truncated
by the clamp. -/
theorem progress_monotone_clamped (H : String → List Nat → String)
    (t : Transport) (s : String) (d : ContentDigest) (res : Response)
    (total : Nat) (cs : List (List Nat)) (hd : try_new s = .ok d)
    (ht : t = .response res) (hs : is_success res.status = true)
    (hl : res.contentLength = some total) (hch : res.chunks = cs.map .ok) :
    List.Chain' (fun a b => a ≤ b)
      (get_blob_with_progress H t s true true).2.notes ∧
    (∀ v ∈ (get_blob_with_progress H t s true true).2.notes, v ≤ total) ∧
    (∃ st, streamLoop total true true res.chunks ⟨0, [], [], 0⟩ = .done st ∧
      st.body = cs.flatten) := by
  subst ht
  have he := gbwp_allOk_effects H s d res total cs hd hs hl hch
  refine ⟨?_, ?_, ?_⟩
  · rw [he]
    exact (clampedTotals_chain total cs 0 (Nat.zero_le _)).tail
  · rw [he]
    exact fun v hv => clampedTotals_le_total total cs 0 v hv
  · rw [hch]
    exact ⟨_, streamLoop_allOk total cs ⟨0, [], [], 0⟩, by simp⟩

theorem progress_monotone_clamped_witness :
    (List.Chain' (fun a b => a ≤ b)
      (get_blob_with_progress Hconst (.response overLenResp) goodDigest
        true true).2.notes ∧
     (∀ v ∈ (get_blob_with_progress Hconst (.response overLenResp)
        goodDigest true true).2.notes, v ≤ 5) ∧
     (∃ st, streamLoop 5 true true overLenResp.chunks ⟨0, [], [], 0⟩
        = .done st ∧ st.body = overChunks.flatten)) ∧
    (get_blob_with_progress Hconst (.response overLenResp) goodDigest
        true true).2.notes = [4, 5] ∧
    overChunks.flatten.length = 8 :=
  ⟨progress_monotone_clamped Hconst _ goodDigest ⟨"sha256", hex64⟩
      overLenResp 5 overChunks try_new_goodDigest rfl (by decide) rfl rfl,
   by decide, by decide⟩

end Blobs
